import Mathlib

/-!
Verification development for the meal recommendation service implemented in
src/llm/main.py. The service exposes one gRPC handler
(MealRecommendationService.RecommendMeal), one HTTP endpoint (POST /recommend),
a prompt template (recommendation_prompt) and a provider wrapper
(OpenWebUILLM._call). Each is embedded below as a pure Lean function; the
external completion provider and the HTTP transport are modelled as explicit
function parameters, and the number of provider invocations is returned
alongside each result so that call-count properties can be stated.
-/

namespace MealRec

/-- One entry of the menu carried by the RPC request: a meal with a name
(message field today_menu, elements with a name attribute). -/
structure MenuMeal where
  name : String
deriving Repr, DecidableEq

/-- Request message of the RecommendMeal RPC: user_id, favorite_meals and
today_menu, as read in lines 174-176 of src/llm/main.py. -/
structure MealRecommendationRequest where
  user_id : String
  favorite_meals : List String
  today_menu : List MenuMeal
deriving Repr, DecidableEq

/-- Response message of the RecommendMeal RPC: recommended_meal_name and
reasoning. -/
structure MealRecommendationResponse where
  recommended_meal_name : String
  reasoning : String
deriving Repr, DecidableEq

/-- Characters removed by the Python str.strip call: leading and trailing
whitespace, here dropped from a character list on both sides. -/
def stripChars (s : List Char) : List Char :=
  ((s.dropWhile Char.isWhitespace).reverse.dropWhile Char.isWhitespace).reverse

/-- Embedding of the Python str.strip() call used on the provider output
(line 202) and on the parsed completion content (line 119). -/
def strip (s : String) : String := String.mk (stripChars s.data)

/-- Embedding of the Python join with separator comma-space, as in
lines 191-192 and 273-274 of src/llm/main.py. -/
def joinCommaSpace : List String → String
  | [] => ""
  | [x] => x
  | x :: xs => x ++ ", " ++ joinCommaSpace xs

/-- The apostrophe character, written through its code point so the prompt
template text below can be reproduced verbatim. -/
def aq : String := String.singleton (Char.ofNat 39)

/-- Text of the prompt template (lines 135-151) before the favorite_menu
placeholder. -/
def promptHead : String :=
  "You are a helpful food recommendation assistant. Your task is to suggest exactly one dish from today" ++ aq ++ "s menu based on the user" ++ aq ++ "s preferences.\n\nUser" ++ aq ++ "s favorite meals: "

/-- Text of the prompt template between the favorite_menu placeholder and the
todays_menu placeholder. -/
def promptMid : String :=
  "\n\nToday" ++ aq ++ "s available meals: "

/-- The literal constraint sentence of the template instructing the provider
to answer with exactly one dish name from the menu and nothing else. -/
def constraintPhrase : String :=
  "IMPORTANT: You must respond with ONLY the exact name of one dish from today" ++ aq ++ "s menu. Do not include any explanations, additional text, punctuation, or formatting. Just return the dish name exactly as it appears in today" ++ aq ++ "s menu."

/-- Text of the prompt template after the todays_menu placeholder and before
the constraint sentence. -/
def promptTailA : String :=
  "\n\nBased on the user" ++ aq ++ "s favorite meals, please recommend exactly ONE meal from today" ++ aq ++ "s available options. \nConsider:\n- Similarity to the user" ++ aq ++ "s favorite meals\n- Flavor profiles that match their preferences\n- Availability in today" ++ aq ++ "s menu\n\n"

/-- Text of the prompt template after the constraint sentence. -/
def promptTailB : String :=
  "\n\nExample format: Spaghetti Carbonara\n\nRecommendation:"

/-- Full tail of the template after the todays_menu placeholder. -/
def promptTail : String := promptTailA ++ constraintPhrase ++ promptTailB

/-- The recommendation_prompt template applied to the two joined clauses:
substitution of favorite_menu and todays_menu into the fixed template text. -/
def promptText (favMenuStr todaysMenuStr : String) : String :=
  promptHead ++ favMenuStr ++ promptMid ++ todaysMenuStr ++ promptTail

/-- The prompt RecommendMeal sends to the chain for a given request: both
lists joined with comma-space and substituted into the template
(lines 190-198 of src/llm/main.py). -/
def builtPrompt (request : MealRecommendationRequest) : String :=
  promptText (joinCommaSpace request.favorite_meals)
    (joinCommaSpace (request.today_menu.map MenuMeal.name))

/-- Embedding of MealRecommendationService.RecommendMeal (lines 161-211).
The chain invocation is a parameter invokeChain mapping the built prompt to
either the provider text (Except.ok) or the textual description of a raised
exception (Except.error, absorbed by the except block at lines 206-211).
The second component counts how many chain invocations occurred. -/
def RecommendMeal (invokeChain : String → Except String String)
    (request : MealRecommendationRequest) : MealRecommendationResponse × Nat :=
  let favorite_meals := request.favorite_meals
  let today_menu := request.today_menu.map MenuMeal.name
  if favorite_meals.isEmpty then
    ({ recommended_meal_name := "No recommendation available",
       reasoning := "No favorite meals provided" }, 0)
  else if today_menu.isEmpty then
    ({ recommended_meal_name := "No recommendation available",
       reasoning := "No meals available today" }, 0)
  else
    let favorite_meals_str := joinCommaSpace favorite_meals
    let todays_meals_str := joinCommaSpace today_menu
    match invokeChain (promptText favorite_meals_str todays_meals_str) with
    | Except.ok recommendation =>
        ({ recommended_meal_name := strip recommendation,
           reasoning := "Recommended based on your favorites: " ++ favorite_meals_str }, 1)
    | Except.error e =>
        ({ recommended_meal_name := "Error generating recommendation",
           reasoning := "An error occurred: " ++ e }, 1)

/-- Request body of POST /recommend (RecommendRequest pydantic model). -/
structure RecommendRequest where
  favorite_menu : List String
  todays_menu : List String
deriving Repr, DecidableEq

/-- Response body of POST /recommend (RecommendResponse pydantic model). -/
structure RecommendResponse where
  recommendation : String
deriving Repr, DecidableEq

/-- Outcome of one HTTP request: a successful JSON body, or an HTTPException
with a status code and detail string. -/
inductive HttpOutcome where
  | ok (body : RecommendResponse)
  | httpError (status_code : Nat) (detail : String)
deriving Repr, DecidableEq

/-- Embedding of the recommend endpoint handler (lines 246-291). The source
validates both lists, joins them with comma-space, but leaves the chain
invocation as a TODO stub (line 276-277) and returns the empty string; hence
the provider-invocation count in the second component is 0 on every path. -/
def recommendEndpoint (req : RecommendRequest) : HttpOutcome × Nat :=
  if req.favorite_menu.isEmpty then
    (HttpOutcome.httpError 400 "favorite_menu cannot be empty", 0)
  else if req.todays_menu.isEmpty then
    (HttpOutcome.httpError 400 "todays_menu cannot be empty", 0)
  else
    (HttpOutcome.ok { recommendation := "" }, 0)

/-- Outcome of the requests.post call inside OpenWebUILLM._call: either a
requests.RequestException with a message (also covering non-2xx statuses via
raise_for_status and the 30 second timeout), or a parsed JSON payload whose
optional field is the content of choices[0].message.content when present. -/
inductive ApiOutcome where
  | requestError (msg : String)
  | payload (choicesContent : Option String)

/-- Error kinds with which OpenWebUILLM._call can fail: the missing-credential
ValueError raised at lines 87-88, the wrapped requests.RequestException of
lines 123-124, and the wrapped parse failure of lines 125-126. -/
inductive CallError where
  | authError (msg : String)
  | requestFailed (msg : String)
  | parseFailed (msg : String)
deriving Repr, DecidableEq

/-- Embedding of OpenWebUILLM._call (lines 65-126). The api_key field comes
from the CHAIR_API_KEY environment variable and may be absent; the Python
truthiness test treats both None and the empty string as missing. The network
is the parameter post; the second component counts network calls. -/
def llmCall (api_key : Option String) (post : String → ApiOutcome)
    (prompt : String) : Except CallError String × Nat :=
  if (api_key.getD "").isEmpty then
    (Except.error (CallError.authError "CHAIR_API_KEY environment variable is required"), 0)
  else
    match post prompt with
    | ApiOutcome.requestError e =>
        (Except.error (CallError.requestFailed ("API request failed: " ++ e)), 1)
    | ApiOutcome.payload none =>
        (Except.error (CallError.parseFailed ("Failed to parse API response: Unexpected response format from API")), 1)
    | ApiOutcome.payload (some content) =>
        (Except.ok (strip content), 1)

/-- Proposition that t occurs verbatim as a contiguous substring of s. -/
def occursIn (t s : String) : Prop := ∃ a b : String, s = a ++ t ++ b

end MealRec

namespace MealRec

/-- A string occurs in itself. -/
theorem occursIn_refl (t : String) : occursIn t t :=
  ⟨"", "", by simp⟩

/-- Occurrence is preserved by appending on the left. -/
theorem occursIn_append_left (u t s : String) (h : occursIn t s) :
    occursIn t (u ++ s) := by
  rcases h with ⟨a, b, hab⟩
  exact ⟨u ++ a, b, by simp [hab, String.append_assoc]⟩

/-- Occurrence is preserved by appending on the right. -/
theorem occursIn_append_right (u t s : String) (h : occursIn t s) :
    occursIn t (s ++ u) := by
  rcases h with ⟨a, b, hab⟩
  exact ⟨a, b ++ u, by simp [hab, String.append_assoc]⟩

/-- Occurrence is transitive. -/
theorem occursIn_trans {t u s : String} (h1 : occursIn t u) (h2 : occursIn u s) :
    occursIn t s := by
  rcases h1 with ⟨a, b, hab⟩
  rcases h2 with ⟨c, d, hcd⟩
  exact ⟨c ++ a, b ++ d, by simp [hcd, hab, String.append_assoc]⟩

/-- Every member of a list occurs verbatim in the comma-space join. -/
theorem occursIn_joinCommaSpace : ∀ (l : List String) (f : String), f ∈ l →
    occursIn f (joinCommaSpace l)
  | [], f, h => absurd h (List.not_mem_nil f)
  | [x], f, h => by
      rcases List.mem_singleton.mp h with rfl
      simpa [joinCommaSpace] using occursIn_refl f
  | x :: y :: ys, f, h => by
      rcases List.mem_cons.mp h with rfl | h2
      · exact ⟨"", ", " ++ joinCommaSpace (y :: ys), by
          simp [joinCommaSpace, String.append_assoc]⟩
      · rcases occursIn_joinCommaSpace (y :: ys) f h2 with ⟨a, b, hab⟩
        exact ⟨x ++ ", " ++ a, b, by
          simp [joinCommaSpace, hab, String.append_assoc]⟩

/-- The favorites clause occurs in the substituted template. -/
theorem occursIn_promptText_fav (fs ms : String) : occursIn fs (promptText fs ms) :=
  ⟨promptHead, promptMid ++ ms ++ promptTail, by simp [promptText, String.append_assoc]⟩

/-- The menu clause occurs in the substituted template. -/
theorem occursIn_promptText_menu (fs ms : String) : occursIn ms (promptText fs ms) :=
  ⟨promptHead ++ fs ++ promptMid, promptTail, by simp [promptText, String.append_assoc]⟩

/-- The constraint sentence occurs in the substituted template. -/
theorem occursIn_promptText_constraint (fs ms : String) :
    occursIn constraintPhrase (promptText fs ms) :=
  ⟨promptHead ++ fs ++ promptMid ++ ms ++ promptTailA, promptTailB, by
    simp [promptText, promptTail, String.append_assoc]⟩

/-- Unfolding of RecommendMeal on the success path with both lists non-empty. -/
theorem RecommendMeal_ok_eq (invokeChain : String → Except String String)
    (request : MealRecommendationRequest) (raw : String)
    (hf : request.favorite_meals ≠ []) (hm : request.today_menu ≠ [])
    (hok : invokeChain (builtPrompt request) = Except.ok raw) :
    RecommendMeal invokeChain request =
      ({ recommended_meal_name := strip raw,
         reasoning := "Recommended based on your favorites: " ++
           joinCommaSpace request.favorite_meals }, 1) := by
  have hf2 : request.favorite_meals.isEmpty = false := by simp [hf]
  have hm2 : (request.today_menu.map MenuMeal.name).isEmpty = false := by simp [hm]
  simp only [builtPrompt] at hok
  simp [RecommendMeal, hf2, hm2, hok]

/-- Unfolding of RecommendMeal on the error path with both lists non-empty. -/
theorem RecommendMeal_error_eq (invokeChain : String → Except String String)
    (request : MealRecommendationRequest) (e : String)
    (hf : request.favorite_meals ≠ []) (hm : request.today_menu ≠ [])
    (herr : invokeChain (builtPrompt request) = Except.error e) :
    RecommendMeal invokeChain request =
      ({ recommended_meal_name := "Error generating recommendation",
         reasoning := "An error occurred: " ++ e }, 1) := by
  have hf2 : request.favorite_meals.isEmpty = false := by simp [hf]
  have hm2 : (request.today_menu.map MenuMeal.name).isEmpty = false := by simp [hm]
  simp only [builtPrompt] at herr
  simp [RecommendMeal, hf2, hm2, herr]

end MealRec

namespace MealRec

/-- Claim C1: for every request with non-empty favorites and non-empty menu,
when the chain invocation fails with error text e, RecommendMeal still
returns a response (it is total by construction) whose recommended_meal_name
is the sentinel Error generating recommendation and whose reasoning contains
the textual description e of the error. -/
theorem RecommendMeal_provider_error (invokeChain : String → Except String String)
    (request : MealRecommendationRequest) (e : String)
    (hf : request.favorite_meals ≠ []) (hm : request.today_menu ≠ [])
    (herr : invokeChain (builtPrompt request) = Except.error e) :
    (RecommendMeal invokeChain request).1.recommended_meal_name =
      "Error generating recommendation" ∧
    occursIn e (RecommendMeal invokeChain request).1.reasoning := by
  rw [RecommendMeal_error_eq invokeChain request e hf hm herr]
  exact ⟨rfl, ⟨"An error occurred: ", "", by simp⟩⟩

/-- Witness for claim C1 at a concrete request and failing provider. -/
theorem RecommendMeal_provider_error_witness :
    (RecommendMeal (fun _ => Except.error "boom")
        { user_id := "u1", favorite_meals := ["Pizza"],
          today_menu := [{ name := "Pasta" }] }).1.recommended_meal_name =
      "Error generating recommendation" ∧
    occursIn "boom"
      (RecommendMeal (fun _ => Except.error "boom")
        { user_id := "u1", favorite_meals := ["Pizza"],
          today_menu := [{ name := "Pasta" }] }).1.reasoning :=
  RecommendMeal_provider_error (fun _ => Except.error "boom")
    { user_id := "u1", favorite_meals := ["Pizza"], today_menu := [{ name := "Pasta" }] }
    "boom" (by decide) (by decide) rfl

/-- Claim C2: for every request with non-empty favorites and non-empty menu,
when the chain returns text raw, the response carries raw stripped of
surrounding whitespace as the chosen name, and the reasoning restates the
favorites joined with comma-space. -/
theorem RecommendMeal_success_trims (invokeChain : String → Except String String)
    (request : MealRecommendationRequest) (raw : String)
    (hf : request.favorite_meals ≠ []) (hm : request.today_menu ≠ [])
    (hok : invokeChain (builtPrompt request) = Except.ok raw) :
    (RecommendMeal invokeChain request).1 =
      { recommended_meal_name := strip raw,
        reasoning := "Recommended based on your favorites: " ++
          joinCommaSpace request.favorite_meals } := by
  rw [RecommendMeal_ok_eq invokeChain request raw hf hm hok]

/-- Witness for claim C2: the provider double returns Spaghetti Carbonara
surrounded by spaces and the response carries it trimmed, with the favorites
restated. -/
theorem RecommendMeal_success_trims_witness :
    (RecommendMeal (fun _ => Except.ok "  Spaghetti Carbonara  ")
        { user_id := "u1", favorite_meals := ["Pasta", "Burger"],
          today_menu := [{ name := "Spaghetti Carbonara" }, { name := "Pizza" }] }).1 =
      { recommended_meal_name := "Spaghetti Carbonara",
        reasoning := "Recommended based on your favorites: Pasta, Burger" } :=
  (RecommendMeal_success_trims (fun _ => Except.ok "  Spaghetti Carbonara  ")
    { user_id := "u1", favorite_meals := ["Pasta", "Burger"],
      today_menu := [{ name := "Spaghetti Carbonara" }, { name := "Pizza" }] }
    "  Spaghetti Carbonara  " (by decide) (by decide) rfl).trans (by decide)

/-- Claim C3: for every request with an empty favorites list, RecommendMeal
returns the sentinel name with reasoning exactly No favorite meals provided,
and the chain is invoked zero times. -/
theorem RecommendMeal_empty_favorites (invokeChain : String → Except String String)
    (request : MealRecommendationRequest)
    (hf : request.favorite_meals = []) :
    RecommendMeal invokeChain request =
      ({ recommended_meal_name := "No recommendation available",
         reasoning := "No favorite meals provided" }, 0) := by
  simp [RecommendMeal, hf]

/-- Witness for claim C3 at a concrete request with empty favorites. -/
theorem RecommendMeal_empty_favorites_witness :
    RecommendMeal (fun _ => Except.ok "Pizza")
      { user_id := "u1", favorite_meals := [], today_menu := [{ name := "Pizza" }] } =
      ({ recommended_meal_name := "No recommendation available",
         reasoning := "No favorite meals provided" }, 0) :=
  RecommendMeal_empty_favorites (fun _ => Except.ok "Pizza")
    { user_id := "u1", favorite_meals := [], today_menu := [{ name := "Pizza" }] } rfl

/-- Claim C4: for every request with non-empty favorites and an empty menu,
RecommendMeal returns the sentinel name with reasoning exactly No meals
available today, and the chain is invoked zero times. -/
theorem RecommendMeal_empty_menu (invokeChain : String → Except String String)
    (request : MealRecommendationRequest)
    (hf : request.favorite_meals ≠ []) (hm : request.today_menu = []) :
    RecommendMeal invokeChain request =
      ({ recommended_meal_name := "No recommendation available",
         reasoning := "No meals available today" }, 0) := by
  have hf2 : request.favorite_meals.isEmpty = false := by simp [hf]
  simp [RecommendMeal, hf2, hm]

/-- Witness for claim C4 at a concrete request with an empty menu. -/
theorem RecommendMeal_empty_menu_witness :
    RecommendMeal (fun _ => Except.ok "Pizza")
      { user_id := "u1", favorite_meals := ["Pizza"], today_menu := [] } =
      ({ recommended_meal_name := "No recommendation available",
         reasoning := "No meals available today" }, 0) :=
  RecommendMeal_empty_menu (fun _ => Except.ok "Pizza")
    { user_id := "u1", favorite_meals := ["Pizza"], today_menu := [] } (by decide) rfl

/-- Claim C5: for every request with non-empty favorites and non-empty menu
and any provider answer raw, the stripped answer is returned verbatim as the
chosen name even when it matches no menu entry: no membership check occurs. -/
theorem RecommendMeal_no_membership_check (invokeChain : String → Except String String)
    (request : MealRecommendationRequest) (raw : String)
    (hf : request.favorite_meals ≠ []) (hm : request.today_menu ≠ [])
    (hok : invokeChain (builtPrompt request) = Except.ok raw)
    (_hnotin : strip raw ∉ request.today_menu.map MenuMeal.name) :
    (RecommendMeal invokeChain request).1.recommended_meal_name = strip raw := by
  rw [RecommendMeal_ok_eq invokeChain request raw hf hm hok]

/-- Witness for claim C5: the provider answers Sushi, which is not on the
menu, and Sushi is still returned as the chosen name. -/
theorem RecommendMeal_no_membership_check_witness :
    (RecommendMeal (fun _ => Except.ok "Sushi")
        { user_id := "u1", favorite_meals := ["Pizza"],
          today_menu := [{ name := "Pasta" }] }).1.recommended_meal_name = "Sushi" :=
  (RecommendMeal_no_membership_check (fun _ => Except.ok "Sushi")
    { user_id := "u1", favorite_meals := ["Pizza"], today_menu := [{ name := "Pasta" }] }
    "Sushi" (by decide) (by decide) rfl (by decide)).trans (by decide)

end MealRec

namespace MealRec

/-- Claim C6: for all non-empty favorites and non-empty menu, the built
prompt contains every favorite name and every menu name verbatim, contains
each sequence joined with comma-space in input order, and contains the
literal constraint sentence instructing a single exact menu-name answer. -/
theorem prompt_contains_all (favs menuNames : List String)
    (_hf : favs ≠ []) (_hm : menuNames ≠ []) :
    (∀ f ∈ favs,
      occursIn f (promptText (joinCommaSpace favs) (joinCommaSpace menuNames))) ∧
    (∀ m ∈ menuNames,
      occursIn m (promptText (joinCommaSpace favs) (joinCommaSpace menuNames))) ∧
    occursIn (joinCommaSpace favs)
      (promptText (joinCommaSpace favs) (joinCommaSpace menuNames)) ∧
    occursIn (joinCommaSpace menuNames)
      (promptText (joinCommaSpace favs) (joinCommaSpace menuNames)) ∧
    occursIn constraintPhrase
      (promptText (joinCommaSpace favs) (joinCommaSpace menuNames)) := by
  refine ⟨?_, ?_, ?_, ?_, ?_⟩
  · intro f hmem
    exact occursIn_trans (occursIn_joinCommaSpace favs f hmem)
      (occursIn_promptText_fav (joinCommaSpace favs) (joinCommaSpace menuNames))
  · intro m hmem
    exact occursIn_trans (occursIn_joinCommaSpace menuNames m hmem)
      (occursIn_promptText_menu (joinCommaSpace favs) (joinCommaSpace menuNames))
  · exact occursIn_promptText_fav (joinCommaSpace favs) (joinCommaSpace menuNames)
  · exact occursIn_promptText_menu (joinCommaSpace favs) (joinCommaSpace menuNames)
  · exact occursIn_promptText_constraint (joinCommaSpace favs) (joinCommaSpace menuNames)

/-- Witness for claim C6 at concrete favorites and menu. -/
theorem prompt_contains_all_witness :
    occursIn "Pasta" (promptText (joinCommaSpace ["Pasta", "Burger"]) (joinCommaSpace ["Pizza"])) ∧
    occursIn "Pizza" (promptText (joinCommaSpace ["Pasta", "Burger"]) (joinCommaSpace ["Pizza"])) ∧
    occursIn constraintPhrase
      (promptText (joinCommaSpace ["Pasta", "Burger"]) (joinCommaSpace ["Pizza"])) :=
  ⟨(prompt_contains_all ["Pasta", "Burger"] ["Pizza"] (by decide) (by decide)).1 "Pasta"
      (by decide),
   (prompt_contains_all ["Pasta", "Burger"] ["Pizza"] (by decide) (by decide)).2.1 "Pizza"
      (by decide),
   (prompt_contains_all ["Pasta", "Burger"] ["Pizza"] (by decide) (by decide)).2.2.2.2⟩

/-- Claim C7 evaluation: at a request with both lists non-empty, the HTTP
endpoint handler returns the empty string without any chain invocation
(the source leaves the chain call as a TODO stub), while the engine at the
same lists with a provider answering a menu item returns that item; the two
differ, so the endpoint body does not equal the engine chosen name. -/
theorem recommendEndpoint_stub_diverges :
    recommendEndpoint { favorite_menu := ["Pizza"], todays_menu := ["Spaghetti Carbonara"] } =
      (HttpOutcome.ok { recommendation := "" }, 0) ∧
    (RecommendMeal (fun _ => Except.ok "Spaghetti Carbonara")
        { user_id := "u1", favorite_meals := ["Pizza"],
          today_menu := [{ name := "Spaghetti Carbonara" }] }).1.recommended_meal_name =
      "Spaghetti Carbonara" ∧
    ("" : String) ≠ "Spaghetti Carbonara" :=
  ⟨rfl, by decide, by decide⟩

/-- Claim C8: for every request to the endpoint in which favorite_menu or
todays_menu is empty, the handler answers with an HTTPException of status 400
and the provider is never invoked. -/
theorem recommendEndpoint_empty_400 (req : RecommendRequest)
    (h : req.favorite_menu = [] ∨ req.todays_menu = []) :
    ∃ d, recommendEndpoint req = (HttpOutcome.httpError 400 d, 0) := by
  rcases h with h | h
  · exact ⟨"favorite_menu cannot be empty", by simp [recommendEndpoint, h]⟩
  · cases hfav : req.favorite_menu with
    | nil => exact ⟨"favorite_menu cannot be empty", by simp [recommendEndpoint, hfav]⟩
    | cons x xs =>
        exact ⟨"todays_menu cannot be empty", by simp [recommendEndpoint, hfav, h]⟩

/-- Witness for claim C8 at a concrete request with empty favorites. -/
theorem recommendEndpoint_empty_400_witness :
    ∃ d, recommendEndpoint { favorite_menu := [], todays_menu := ["Pizza"] } =
      (HttpOutcome.httpError 400 d, 0) :=
  recommendEndpoint_empty_400 { favorite_menu := [], todays_menu := ["Pizza"] }
    (Or.inl rfl)

/-- Claim C9: for every prompt and network behavior, when the credential is
absent (unset, or set to the empty string, both falsy in the source), the
provider call fails with the Auth error kind and performs zero network
calls. -/
theorem llmCall_missing_key_auth (api_key : Option String)
    (post : String → ApiOutcome) (p : String)
    (h : api_key = none ∨ api_key = some "") :
    llmCall api_key post p =
      (Except.error
        (CallError.authError "CHAIR_API_KEY environment variable is required"), 0) := by
  rcases h with rfl | rfl <;> rfl

/-- Witness for claim C9 with no credential configured. -/
theorem llmCall_missing_key_auth_witness :
    llmCall none (fun _ => ApiOutcome.payload none) "any prompt text" =
      (Except.error
        (CallError.authError "CHAIR_API_KEY environment variable is required"), 0) :=
  llmCall_missing_key_auth none (fun _ => ApiOutcome.payload none) "any prompt text"
    (Or.inl rfl)

/-- Claim C10: two requests that agree on favorite_meals and today_menu and
differ only in user_id produce identical responses under any provider: the
result does not depend on user_id. -/
theorem RecommendMeal_user_id_irrelevant (invokeChain : String → Except String String)
    (r1 r2 : MealRecommendationRequest)
    (hfav : r1.favorite_meals = r2.favorite_meals)
    (hmenu : r1.today_menu = r2.today_menu) :
    RecommendMeal invokeChain r1 = RecommendMeal invokeChain r2 := by
  simp only [RecommendMeal, hfav, hmenu]

/-- Witness for claim C10 at two requests differing only in user_id. -/
theorem RecommendMeal_user_id_irrelevant_witness :
    RecommendMeal (fun _ => Except.ok "Pizza")
      { user_id := "alice", favorite_meals := ["Pizza"], today_menu := [{ name := "Pizza" }] } =
    RecommendMeal (fun _ => Except.ok "Pizza")
      { user_id := "bob", favorite_meals := ["Pizza"], today_menu := [{ name := "Pizza" }] } :=
  RecommendMeal_user_id_irrelevant (fun _ => Except.ok "Pizza")
    { user_id := "alice", favorite_meals := ["Pizza"], today_menu := [{ name := "Pizza" }] }
    { user_id := "bob", favorite_meals := ["Pizza"], today_menu := [{ name := "Pizza" }] }
    rfl rfl

end MealRec
